import Mathlib

/-!
Verification of the GDB Remote Serial Protocol client of the
vscode-amiga-assembly repository (the GdbProxy and its data types).

The repository ships the protocol client's test suite
(src/src/test/gdbProxy.test.ts); the client itself (gdbProxy.ts,
gdbProxyCore.ts, breakpointManager.ts) is not among the staged files, so
the definitions below are modelled from the specification, with every
concrete wire string and message text pinned by the assertions of the test
suite.  Strings are manipulated through their character lists so that all
definitions evaluate by kernel reduction.
-/

namespace Gdb

/-- Lowercase hexadecimal rendering of a natural number, no leading zeros
(zero renders as "0"), as JavaScript's toString(16) produces. -/
def hexStr (n : Nat) : String := String.mk (Nat.toDigits 16 n)

/-- Decimal rendering of a natural number, as JavaScript's default number
to string conversion produces. -/
def decStr (n : Nat) : String := String.mk (Nat.toDigits 10 n)

/-- Value of one lowercase hexadecimal digit character. -/
def hexDigitVal (c : Char) : Nat :=
  let n := c.toNat
  if n ≤ 57 then n - 48 else n - 87

/-- Whether a character is a lowercase hexadecimal digit (0-9, a-f). -/
def isLowerHexDigit (c : Char) : Bool :=
  let n := c.toNat
  (48 ≤ n && n ≤ 57) || (97 ≤ n && n ≤ 102)

/-- Value of a big-endian list of hexadecimal digit characters. -/
def hexList (cs : List Char) : Nat :=
  cs.foldl (fun a c => a * 16 + hexDigitVal c) 0

/-- Value of a hexadecimal string. -/
def hexToNat (s : String) : Nat := hexList s.data

/-- Split a character list on a separator character (the list analogue of
JavaScript's String.split with a one-character separator). -/
def splitOnChar (sep : Char) : List Char → List (List Char)
  | [] => [[]]
  | c :: cs =>
    if c = sep then [] :: splitOnChar sep cs
    else
      match splitOnChar sep cs with
      | g :: gs => (c :: g) :: gs
      | [] => [[c]]

/-- Characters before the first occurrence of a separator. -/
def takeUntilChar (sep : Char) : List Char → List Char
  | [] => []
  | c :: cs => if c = sep then [] else c :: takeUntilChar sep cs

/-- Suffix after the first occurrence of a pattern, none when the pattern
does not occur. -/
def afterPattern (pat : List Char) : List Char → Option (List Char)
  | [] => none
  | c :: cs =>
    if pat.isPrefixOf (c :: cs) then some (List.drop pat.length (c :: cs))
    else afterPattern pat cs

/-- Uppercase an ASCII string, as JavaScript's toUpperCase does on the
ASCII error tokens of the wire protocol. -/
def upperString (s : String) : String := String.mk (s.data.map Char.toUpper)

/-- Modelled from the spec: the Packet Codec's checksum (the repository's
GdbProxy.calculateChecksum is not among the staged files).  Sum of the
character code values of the payload modulo 256, rendered as exactly two
lowercase hexadecimal digits.  Pinned by the concrete values asserted in
src/src/test/gdbProxy.test.ts. -/
def byteSum (s : String) : Nat := (s.data.map Char.toNat).sum

/-- Two lowercase hexadecimal digits of a value below 256. -/
def calculateChecksum (s : String) : String :=
  let v := byteSum s % 256
  String.mk [Nat.digitChar (v / 16), Nat.digitChar (v % 16)]

/-- Modelled from the spec: the fixed error code to description table of
the protocol error type (gdbProxyCore.ts is not among the staged files).
The test suite pins the E0F entry, the description of a packet-parse
failure of the send memory command. -/
def errorDescriptions : List (String × String) :=
  [("E0F", "Error during the packet parse for command send memory")]

/-- Description of an error code, when the fixed table has it. -/
def lookupDescription (code : String) : Option String :=
  (errorDescriptions.find? (fun p => p.1 = code)).map (fun p => p.2)

/-- Modelled from the spec: the protocol error raised for an error token
received on the wire (the GdbError class of gdbProxyCore.ts is not among
the staged files).  Field and message behaviour pinned by the GdbError
assertions of src/src/test/gdbProxy.test.ts. -/
structure GdbError where
  errorType : String
  message : String
  name : String
deriving DecidableEq, Repr

/-- Construction of a GdbError from the wire token: the token is stored
uppercased, the message comes from the fixed table when the uppercased
token has an entry and is synthesized otherwise, and the error's name is
"GdbError".  The synthesized text (capital E, the spelling "recieved") is
the one the repository's test asserts. -/
def GdbError.ofString (t : String) : GdbError :=
  let et := upperString t
  { errorType := et
    message :=
      match lookupDescription et with
      | some d => d
      | none => "Error code recieved: '" ++ et ++ "'"
    name := "GdbError" }

/-- Modelled from the spec: a breakpoint record (breakpointManager.ts is
not among the staged files).  The offset is an integer because validation
must reject negative offsets; a present segmentId makes the breakpoint
segment-relative; a present exceptionMask makes it an exception
breakpoint. -/
structure GdbBreakpoint where
  id : Nat
  segmentId : Option Nat
  offset : Int
  exceptionMask : Option Nat
  verified : Bool
deriving DecidableEq, Repr

/-- Modelled from the spec: one entry of the Segment Table, an address
range of the loaded program. -/
structure Segment where
  address : Nat
  size : Nat
deriving DecidableEq, Repr

/-- Modelled from the spec: the state the protocol client keeps between
calls: whether the socket is connected, the Segment Table once a program
was loaded, the pending breakpoint queue, the thread list, and whether the
first stop notification after a successful load is still awaited (together
with the stopOnEntry choice of that load). -/
structure ProxyState where
  connected : Bool
  segments : Option (List Segment)
  pending : List GdbBreakpoint
  threads : List (Nat × Nat)
  firstStopArmed : Bool
  stopOnEntry : Bool
deriving DecidableEq, Repr

/-- State of a freshly constructed proxy: disconnected, no segments, no
pending breakpoints, no threads. -/
def initialState : ProxyState :=
  { connected := false, segments := none, pending := [], threads := []
    firstStopArmed := false, stopOnEntry := false }

/-- Failures of the modelled operations: a local validation failure (no
packet is sent), a capability negotiation failure, or an error token
received on the wire. -/
inductive ProxyError where
  | validation : String → ProxyError
  | negotiation : String → ProxyError
  | gdb : GdbError → ProxyError
deriving DecidableEq, Repr

/-- Whether a failure is a negotiation failure. -/
def ProxyError.isNegotiation : ProxyError → Bool
  | .negotiation _ => true
  | _ => false

/-- Modelled from the spec: local validation of a breakpoint before any
packet is sent: the offset must be non-negative, and a present segmentId
must index an existing entry of the current Segment Table. -/
def validateBreakpoint (st : ProxyState) (bp : GdbBreakpoint) : Option String :=
  if bp.offset < 0 then some "invalid breakpoint offset"
  else
    match bp.segmentId, st.segments with
    | some sid, some segs =>
      if sid < segs.length then none else some "invalid breakpoint segment id"
    | _, _ => none

/-- Offset (lowercase hexadecimal) followed by the optional decimal
segment field of an address breakpoint packet. -/
def encodeAddrTail (bp : GdbBreakpoint) : String :=
  hexStr bp.offset.toNat ++
    (match bp.segmentId with
     | some sid => "," ++ decStr sid
     | none => "")

/-- Modelled from the spec: the set-breakpoint packet payload: an
exception breakpoint is the chained request Z1,0;X1,(mask hex); an
address breakpoint is Z0,(offset hex) with an optional trailing decimal
segment id. -/
def encodeSetBreakpoint (bp : GdbBreakpoint) : String :=
  match bp.exceptionMask with
  | some mask => "Z1,0;X1," ++ hexStr mask
  | none => "Z0," ++ encodeAddrTail bp

/-- Modelled from the spec: the remove-breakpoint packet payload: the set
encoding with lowercase z, except that exception removal is z1,(mask hex)
alone. -/
def encodeRemoveBreakpoint (bp : GdbBreakpoint) : String :=
  match bp.exceptionMask with
  | some mask => "z1," ++ hexStr mask
  | none => "z0," ++ encodeAddrTail bp

/-- Modelled from the spec: setBreakpoint.  Validation failure rejects
with no packet sent; with a connection and a Segment Table the encoded
packet is sent and a wire error propagates; with a connection but no
Segment Table yet (before any load) the breakpoint is queued as pending
with no packet sent; without a connection the call rejects with no packet
sent.  The second component of the result is the list of payloads sent on
the wire. -/
def setBreakpoint (st : ProxyState) (reply : String → Except GdbError String)
    (bp : GdbBreakpoint) :
    Except ProxyError (ProxyState × GdbBreakpoint) × List String :=
  match validateBreakpoint st bp with
  | some msg => (.error (.validation msg), [])
  | none =>
    if st.connected then
      if st.segments.isSome then
        (match reply (encodeSetBreakpoint bp) with
         | .ok _ => .ok (st, { bp with verified := true })
         | .error e => .error (.gdb e),
         [encodeSetBreakpoint bp])
      else
        (.ok ({ st with pending := st.pending ++ [bp] }, bp), [])
    else (.error (.validation "socket not connected"), [])

/-- Modelled from the spec: removeBreakpoint mirrors setBreakpoint;
removing while disconnected is a validation failure and a negative offset
is rejected, in both cases with no packet sent. -/
def removeBreakpoint (st : ProxyState) (reply : String → Except GdbError String)
    (bp : GdbBreakpoint) : Except ProxyError ProxyState × List String :=
  match validateBreakpoint st bp with
  | some msg => (.error (.validation msg), [])
  | none =>
    if st.connected && st.segments.isSome then
      (match reply (encodeRemoveBreakpoint bp) with
       | .ok _ => .ok st
       | .error e => .error (.gdb e),
       [encodeRemoveBreakpoint bp])
    else (.error (.validation "socket not connected"), [])

/-- Modelled from the spec: the capability query packet listing the
required features, as the test suite stubs it. -/
def supportRequest : String :=
  "qSupportedQStartNoAckMode;multiprocess;vContSupported;QNonStop"

/-- Whether the capability reply (a semicolon-separated feature token
list) reports no-acknowledgement mode support as present and enabled. -/
def hasNoAckSupport (r : String) : Bool :=
  (splitOnChar ';' r.data).contains "QStartNoAckMode+".data

/-- Outcome of connect: the failure when there is one, the state the
instance is left in, and the packet payloads sent. -/
structure ConnectOutcome where
  error : Option ProxyError
  state : ProxyState
  sent : List String
deriving DecidableEq, Repr

/-- Modelled from the spec: connect (after the transport-level socket
connection succeeded, which the reply function models): send the
capability query; when the reply does not report no-acknowledgement mode
support the whole connection is rejected with a negotiation failure and
the enable command is never sent; otherwise enable no-acknowledgement
mode, a non-OK reply failing the call.  Any failure leaves the instance
disconnected. -/
def connect (reply : String → Except GdbError String) : ConnectOutcome :=
  match reply supportRequest with
  | .error e => ⟨some (.gdb e), initialState, [supportRequest]⟩
  | .ok r =>
    if hasNoAckSupport r then
      match reply "QStartNoAckMode" with
      | .error e => ⟨some (.gdb e), initialState, [supportRequest, "QStartNoAckMode"]⟩
      | .ok r2 =>
        if r2 = "OK" then
          ⟨none, { initialState with connected := true },
           [supportRequest, "QStartNoAckMode"]⟩
        else
          ⟨some (.negotiation "could not enable no ack mode"), initialState,
           [supportRequest, "QStartNoAckMode"]⟩
    else ⟨some (.negotiation "no ack mode not supported"), initialState, [supportRequest]⟩

/-- Run command payload carrying the target executable path. -/
def runCommand (prog : String) : String := "vRun;" ++ prog ++ ";"

/-- Address and size pairs of the run reply's chunk list. -/
def segmentsOfChunks : List String → List Segment
  | a :: s :: rest => { address := hexToNat a, size := hexToNat s } :: segmentsOfChunks rest
  | _ => []

/-- Modelled from the spec: the Segment Table parsed from the run
command's reply, a semicolon-separated list of hexadecimal address and
size pairs after the leading reply marker chunk (the test stubs the reply
AS;aef;20, one segment at 0xaef of size 0x20). -/
def parseSegments (r : String) : List Segment :=
  match (splitOnChar ';' r.data).map String.mk with
  | [] => []
  | _ :: chunks => segmentsOfChunks chunks

/-- Process id and thread id of one dotted hexadecimal chunk. -/
def parseTidChars (cs : List Char) : Option (Nat × Nat) :=
  match splitOnChar '.' cs with
  | [p, t] => some (hexList p, hexList t)
  | _ => none

/-- Modelled from the spec: the thread list parsed from the qfThreadInfo
reply (the test stubs m00.07,00.0f,l: threads 0.7 and 0.15). -/
def parseThreadInfo (r : String) : List (Nat × Nat) :=
  match r.data with
  | _ :: rest => (splitOnChar ',' rest).filterMap parseTidChars
  | [] => []

/-- Modelled from the spec: the closed set of system thread roles of the
target: the main CPU, the Copper co-processor, and a generic role for
unrecognized raw ids. -/
inductive GdbAmigaSysThreadId where
  | CPU
  | COP
  | other
deriving DecidableEq, Repr

/-- Fixed mapping from a raw thread id to its logical role, pinned by the
halt status assertions of the test suite (raw id 0x0f is the CPU, raw id
0x07 the Copper). -/
def resolveRole (tid : Nat) : GdbAmigaSysThreadId :=
  if tid = 15 then .CPU else if tid = 7 then .COP else .other

/-- The default CPU thread of a thread list. -/
def findCpuThread (ts : List (Nat × Nat)) : Option (Nat × Nat) :=
  ts.find? (fun t => decide (resolveRole t.2 = .CPU))

/-- Thread id wire encoding: process id and thread id in lowercase
hexadecimal without leading zeros, joined by a dot. -/
def encodeTid (t : Nat × Nat) : String := hexStr t.1 ++ "." ++ hexStr t.2

/-- Modelled from the spec: load.  The entry breakpoint Z0,0,0 is
installed first (the test suite shows it is sent for both values of
stopOnEntry); a failure there aborts the load before the run command.
Then the run command is sent and its reply rebuilds the Segment Table,
the register set is fetched, and the thread list is refreshed.  On
success the state awaits the first stop notification (firstStopArmed)
remembering stopOnEntry.  The second component is the list of payloads
sent. -/
def load (st : ProxyState) (reply : String → Except GdbError String)
    (prog : String) (stopOnEntry : Bool) :
    Except GdbError ProxyState × List String :=
  match reply "Z0,0,0" with
  | .error e => (.error e, ["Z0,0,0"])
  | .ok _ =>
    match reply (runCommand prog) with
    | .error e => (.error e, ["Z0,0,0", runCommand prog])
    | .ok segReply =>
      match reply "g" with
      | .error e => (.error e, ["Z0,0,0", runCommand prog, "g"])
      | .ok _ =>
        match reply "qfThreadInfo" with
        | .error e => (.error e, ["Z0,0,0", runCommand prog, "g", "qfThreadInfo"])
        | .ok tReply =>
          (.ok { st with
                  segments := some (parseSegments segReply)
                  threads := parseThreadInfo tReply
                  firstStopArmed := true
                  stopOnEntry := stopOnEntry },
           ["Z0,0,0", runCommand prog, "g", "qfThreadInfo"])

/-- Actions of the Halt-Status Resolver on a stop notification: invoke
the pending-breakpoint flush callback, or send a packet. -/
inductive StopAction where
  | flushPendingBreakpoints
  | sendPacket : String → StopAction
deriving DecidableEq, Repr

/-- Modelled from the spec: handling of an asynchronous stop
notification.  On the first one after a successful load the pending
breakpoints are flushed and, only when stopOnEntry was false, a continue
for the default CPU thread is issued; later notifications trigger
neither. -/
def onStopNotification (st : ProxyState) : ProxyState × List StopAction :=
  if st.firstStopArmed then
    ({ st with firstStopArmed := false },
     .flushPendingBreakpoints ::
       (if st.stopOnEntry then []
        else
          match findCpuThread st.threads with
          | some t => [.sendPacket ("vCont;c:" ++ encodeTid t)]
          | none => []))
  else (st, [])

/-- Halt status: the signal number of a stop reply and the raw thread id
(process id, thread id) it names, when it names one. -/
structure GdbHaltStatus where
  code : Nat
  thread : Option (Nat × Nat)
deriving DecidableEq, Repr

/-- Modelled from the spec: parsing of a stop reply T(signal hex) or
S(signal hex), reading the signal number from the hexadecimal digits
after the letter and the raw thread id from the thread: field when
present. -/
def parseStopReply (r : String) : Option GdbHaltStatus :=
  match r.data with
  | c :: rest =>
    if c = 'T' ∨ c = 'S' then
      some { code := hexList (rest.takeWhile isLowerHexDigit)
             thread :=
               match afterPattern "thread:".data rest with
               | some suffix => parseTidChars (takeUntilChar ';' suffix)
               | none => none }
    else none
  | [] => none

/-- Modelled from the spec: draining of additional queued stop replies:
vStopped is sent repeatedly until the reply is the terminal OK marker,
one halt status accumulated per stop reply.  The successive vStopped
replies are modelled as a list; the result carries the statuses and the
number of vStopped packets sent. -/
def drainStops : List String → List GdbHaltStatus × Nat
  | [] => ([], 0)
  | r :: rest =>
    if r = "OK" then ([], 1)
    else
      match parseStopReply r with
      | some h =>
        let (hs, n) := drainStops rest
        (h :: hs, n + 1)
      | none => ([], 1)

/-- Modelled from the spec: getHaltStatus sends the halt status query,
parses its stop reply, and drains the additional queued stop replies
until vStopped answers OK.  The result carries the halt statuses and the
number of vStopped packets sent. -/
def getHaltStatus (reply : String → Except GdbError String)
    (vStoppedReplies : List String) : List GdbHaltStatus × Nat :=
  match reply "?" with
  | .error _ => ([], 0)
  | .ok r =>
    match parseStopReply r with
    | some h =>
      let (hs, n) := drainStops vStoppedReplies
      (h :: hs, n)
    | none => ([], 0)

/-- Modelled from the spec: setMemory sends M(address hex),(byte length
hex):(data) once and propagates a wire error without retry. -/
def setMemory (reply : String → Except GdbError String)
    (address : Nat) (hexData : String) : Except ProxyError Unit × List String :=
  (match reply ("M" ++ hexStr address ++ "," ++ hexStr (hexData.length / 2) ++ ":" ++ hexData) with
   | .ok _ => .ok ()
   | .error e => .error (.gdb e),
   ["M" ++ hexStr address ++ "," ++ hexStr (hexData.length / 2) ++ ":" ++ hexData])

/-! Concrete fixtures mirroring the scenarios of the repository's test
suite. -/

/-- Reply function answering OK to every packet. -/
def okReply : String → Except GdbError String := fun _ => .ok "OK"

/-- Reply function answering the E1 error token to every packet. -/
def errReply : String → Except GdbError String :=
  fun _ => .error (GdbError.ofString "E1")

/-- The one segment of the test scenario (reply AS;aef;20). -/
def seg0 : Segment := { address := 2799, size := 32 }

/-- State after connect but before any load. -/
def connectedState : ProxyState := { initialState with connected := true }

/-- State after connect, load and the first stop notification: one
segment, the CPU and Copper threads, nothing pending. -/
def loadedState : ProxyState :=
  { connected := true, segments := some [seg0], pending := []
    threads := [(0, 7), (0, 15)], firstStopArmed := false, stopOnEntry := true }

/-- State right after a successful load with stopOnEntry false, before
the first stop notification. -/
def loadedStateRun : ProxyState :=
  { connected := true, segments := some [seg0], pending := []
    threads := [(0, 7), (0, 15)], firstStopArmed := true, stopOnEntry := false }

/-- State right after a successful load with stopOnEntry true, before
the first stop notification. -/
def loadedStateEntry : ProxyState := { loadedStateRun with stopOnEntry := true }

/-- Absolute breakpoint at offset 4. -/
def bpAbs4 : GdbBreakpoint :=
  { id := 0, segmentId := none, offset := 4, exceptionMask := none, verified := false }

/-- Segment-relative breakpoint, segment 0, offset 4. -/
def bpSeg04 : GdbBreakpoint :=
  { id := 0, segmentId := some 0, offset := 4, exceptionMask := none, verified := false }

/-- Segment-relative breakpoint, segment 0, offset 5. -/
def bpSeg05 : GdbBreakpoint :=
  { id := 0, segmentId := some 0, offset := 5, exceptionMask := none, verified := false }

/-- Exception breakpoint with mask 10. -/
def bpExc10 : GdbBreakpoint :=
  { id := 0, segmentId := none, offset := 0, exceptionMask := some 10, verified := false }

/-- Breakpoint with the invalid offset -1. -/
def bpNeg1 : GdbBreakpoint :=
  { id := 0, segmentId := none, offset := -1, exceptionMask := none, verified := false }

/-- Breakpoint naming the out-of-range segment 28. -/
def bpSeg28 : GdbBreakpoint :=
  { id := 0, segmentId := some 28, offset := 0, exceptionMask := none, verified := false }

/-- Reply function of the successful connect-and-load scenario of the
test suite. -/
def sampleReplies : String → Except GdbError String := fun p =>
  if p = supportRequest then
    .ok "multiprocess+;vContSupported+;QStartNoAckMode+;QNonStop+"
  else if p = "QStartNoAckMode" then .ok "OK"
  else if p = "Z0,0,0" then .ok "OK"
  else if p = "vRun;dh0:myprog;" then .ok "AS;aef;20"
  else if p = "g" then .ok ""
  else if p = "qfThreadInfo" then .ok "m00.07,00.0f,l"
  else .error (GdbError.ofString "E1")

/-- Reply function whose capability reply omits no-acknowledgement mode
support. -/
def noAckMissingReplies : String → Except GdbError String := fun p =>
  if p = supportRequest then .ok "multiprocess+;vContSupported+" else .ok "OK"

/-- Reply function failing the entry breakpoint installation. -/
def entryBpFailReplies : String → Except GdbError String := fun p =>
  if p = "Z0,0,0" then .error (GdbError.ofString "E1") else .ok "OK"

/-- Stop reply naming the CPU thread (raw id 00.0f). -/
def stopReplyCpu : String :=
  "T05thread:00.0f;0e:00c00b00;0f:00c14e18;10:00000000;11:00c034c2;1e:00005860"

/-- Stop reply naming the Copper thread (raw id 00.07). -/
def stopReplyCop : String :=
  "T05thread:00.07;0e:00c00b00;0f:00c14e18;10:00000000;11:00c034c2;1e:00005860"

/-- Reply function of the halt status scenario: the query returns the CPU
stop reply. -/
def sampleHaltReplies : String → Except GdbError String := fun p =>
  if p = "?" then .ok stopReplyCpu else .error (GdbError.ofString "E1")

/-! Helper lemmas. -/

/-- Strings with the same character list are equal. -/
theorem strExt (a b : String) (h : a.data = b.data) : a = b := by
  cases a with
  | mk la =>
    cases b with
    | mk lb => exact congrArg String.mk h

/-- The character list of an appended string. -/
theorem string_data_append (a b : String) : (a ++ b).data = a.data ++ b.data := rfl

/-- Appending the empty string is the identity. -/
theorem string_append_empty (s : String) : s ++ "" = s :=
  strExt _ _ (by simp [string_data_append])

/-- String append is associative. -/
theorem string_append_assoc (a b c : String) : a ++ b ++ c = a ++ (b ++ c) :=
  strExt _ _ (by simp [string_data_append])

/-- C3: for every payload string, calculateChecksum equals the sum of the
byte values of the payload modulo 256, rendered as exactly two lowercase
hexadecimal digits, and in particular the checksum of "" is "00", of "OK"
is "9a", of "QStartNoAckMode" is "b0" and of "g" is "67". -/
theorem calculateChecksum_correct :
    (∀ p : String,
        (calculateChecksum p).length = 2 ∧
        (∀ c ∈ (calculateChecksum p).data, isLowerHexDigit c = true) ∧
        hexToNat (calculateChecksum p) = byteSum p % 256) ∧
    calculateChecksum "" = "00" ∧
    calculateChecksum "OK" = "9a" ∧
    calculateChecksum "QStartNoAckMode" = "b0" ∧
    calculateChecksum "g" = "67" := by
  have hdig : ∀ n < 16, isLowerHexDigit (Nat.digitChar n) = true := by decide
  have hval : ∀ n < 16, hexDigitVal (Nat.digitChar n) = n := by decide
  refine ⟨fun p => ?_, by decide, by decide, by decide, by decide⟩
  have hlt : byteSum p % 256 < 256 := Nat.mod_lt _ (by norm_num)
  have hdiv : byteSum p % 256 / 16 < 16 :=
    (Nat.div_lt_iff_lt_mul (by norm_num)).mpr (by omega)
  have hmod : byteSum p % 256 % 16 < 16 := Nat.mod_lt _ (by norm_num)
  refine ⟨rfl, ?_, ?_⟩
  · intro c hc
    simp only [calculateChecksum, List.mem_cons, List.not_mem_nil, or_false] at hc
    rcases hc with hc | hc
    · exact hc ▸ hdig _ hdiv
    · exact hc ▸ hdig _ hmod
  · simp only [calculateChecksum, hexToNat, hexList, List.foldl]
    rw [hval _ hdiv, hval _ hmod]
    omega

/-- C9 counterexample: the message synthesized for a token outside the
fixed table is not the claimed lowercase text: for the token X1 the
message the repository's test asserts differs from
"error code received: 'X1'". -/
theorem gdbError_default_message_cex :
    (GdbError.ofString "X1").message ≠ "error code received: 'X1'" := by decide

/-- C9 (amended): an E-prefixed token present in the fixed table resolves
to its fixed description (E0F resolves to the description for a
memory-write packet-parse failure) and the failing call rejects with it
after a single send; for every other token the message is synthesized as
"Error code recieved: '(code)'" (capital E and the repository's spelling
of the word received). -/
theorem gdbError_message_resolution :
    (∀ t d, lookupDescription (upperString t) = some d →
        (GdbError.ofString t).message = d) ∧
    (∀ t, lookupDescription (upperString t) = none →
        (GdbError.ofString t).message = "Error code recieved: '" ++ upperString t ++ "'") ∧
    (GdbError.ofString "E0f").message =
      "Error during the packet parse for command send memory" ∧
    (GdbError.ofString "X1").message = "Error code recieved: 'X1'" ∧
    (∀ reply addr data e,
        reply ("M" ++ hexStr addr ++ "," ++ hexStr (data.length / 2) ++ ":" ++ data) =
          .error e →
        setMemory reply addr data =
          (.error (.gdb e),
           ["M" ++ hexStr addr ++ "," ++ hexStr (data.length / 2) ++ ":" ++ data])) ∧
    setMemory (fun _ => .error (GdbError.ofString "E0f")) 10 "8aff" =
      (.error (.gdb (GdbError.ofString "E0f")), ["Ma,2:8aff"]) := by
  refine ⟨?_, ?_, by decide, by decide, ?_, by rfl⟩
  · intro t d h
    simp [GdbError.ofString, h]
  · intro t h
    simp [GdbError.ofString, h]
  · intro reply addr data e h
    simp [setMemory, h]

/-- C10: constructing a GdbError from a wire token stores the token
uppercased in errorType (E0f becomes E0F, the already-uppercase X1 is
unchanged) and sets the error's name to "GdbError", whether or not the
token has an entry in the description table. -/
theorem gdbError_uppercase_type :
    (∀ t, (GdbError.ofString t).errorType = upperString t ∧
        (GdbError.ofString t).name = "GdbError") ∧
    (GdbError.ofString "E0f").errorType = "E0F" ∧
    (GdbError.ofString "E0f").name = "GdbError" ∧
    lookupDescription (upperString "E0f") ≠ none ∧
    (GdbError.ofString "X1").errorType = "X1" ∧
    (GdbError.ofString "X1").name = "GdbError" ∧
    lookupDescription (upperString "X1") = none := by
  exact ⟨fun t => ⟨rfl, rfl⟩, by decide, by decide, by decide, by decide, by decide, by decide⟩

/-- C1: for every valid breakpoint passed to setBreakpoint while
connected and loaded exactly one packet is sent, whose payload is
Z0,(offset hex) when neither exceptionMask nor segmentId is present,
Z0,(offset hex),(segmentId decimal) when segmentId is present, and the
chained Z1,0;X1,(mask hex) when exceptionMask is present; offset 4 gives
Z0,4, offset 4 with segment 0 gives Z0,4,0, and mask 10 gives
Z1,0;X1,a. -/
theorem setBreakpoint_encoding :
    (∀ st reply bp, st.connected = true → st.segments.isSome = true →
        validateBreakpoint st bp = none →
        (setBreakpoint st reply bp).2 = [encodeSetBreakpoint bp]) ∧
    (∀ bp : GdbBreakpoint, bp.exceptionMask = none → bp.segmentId = none →
        encodeSetBreakpoint bp = "Z0," ++ hexStr bp.offset.toNat) ∧
    (∀ (bp : GdbBreakpoint) (sid : Nat), bp.exceptionMask = none →
        bp.segmentId = some sid →
        encodeSetBreakpoint bp = "Z0," ++ hexStr bp.offset.toNat ++ "," ++ decStr sid) ∧
    (∀ (bp : GdbBreakpoint) (mask : Nat), bp.exceptionMask = some mask →
        encodeSetBreakpoint bp = "Z1,0;X1," ++ hexStr mask) ∧
    (setBreakpoint loadedState okReply bpAbs4).2 = ["Z0,4"] ∧
    (setBreakpoint loadedState okReply bpSeg04).2 = ["Z0,4,0"] ∧
    (setBreakpoint loadedState okReply bpExc10).2 = ["Z1,0;X1,a"] := by
  refine ⟨?_, ?_, ?_, ?_, by rfl, by rfl, by rfl⟩
  · intro st reply bp hc hs hv
    simp only [setBreakpoint, hv, hc, hs, if_true]
  · intro bp hm hs
    simp [encodeSetBreakpoint, encodeAddrTail, hm, hs, string_append_empty]
  · intro bp sid hm hs
    simp only [encodeSetBreakpoint, encodeAddrTail, hm, hs]
    exact strExt _ _ (by simp [string_data_append])
  · intro bp mask hm
    simp [encodeSetBreakpoint, hm]

/-- C8: removeBreakpoint sends exactly the set encoding with the
lowercase command letter z in place of Z (segment 0, offset 4 gives
z0,4,0), except that for an exception breakpoint it sends z1,(mask hex)
only, with no leading z1,0; element (mask 10 gives z1,a). -/
theorem removeBreakpoint_mirrors :
    (∀ st reply bp, st.connected = true → st.segments.isSome = true →
        validateBreakpoint st bp = none →
        (removeBreakpoint st reply bp).2 = [encodeRemoveBreakpoint bp]) ∧
    (∀ bp : GdbBreakpoint, bp.exceptionMask = none →
        encodeSetBreakpoint bp = "Z" ++ ("0," ++ encodeAddrTail bp) ∧
        encodeRemoveBreakpoint bp = "z" ++ ("0," ++ encodeAddrTail bp)) ∧
    (∀ (bp : GdbBreakpoint) (mask : Nat), bp.exceptionMask = some mask →
        encodeRemoveBreakpoint bp = "z1," ++ hexStr mask) ∧
    (removeBreakpoint loadedState okReply bpSeg04).2 = ["z0,4,0"] ∧
    (removeBreakpoint loadedState okReply bpExc10).2 = ["z1,a"] ∧
    "z1,0;".data.isPrefixOf (encodeRemoveBreakpoint bpExc10).data = false := by
  refine ⟨?_, ?_, ?_, by rfl, by rfl, by decide⟩
  · intro st reply bp hc hs hv
    simp only [removeBreakpoint, hv, hc, hs, Bool.and_self, if_true]
  · intro bp hm
    constructor
    · simp only [encodeSetBreakpoint, hm]
      rw [show ("Z0," : String) = "Z" ++ "0," from rfl, string_append_assoc]
    · simp only [encodeRemoveBreakpoint, hm]
      rw [show ("z0," : String) = "z" ++ "0," from rfl, string_append_assoc]
  · intro bp mask hm
    simp [encodeRemoveBreakpoint, hm]

/-- C5: a breakpoint with a negative offset is rejected with no packet
sent, for every value of segmentId; a segmentId out of range of the
current Segment Table is rejected with no packet sent; both setBreakpoint
and removeBreakpoint reject with no packet sent when there is no active
connection; and a breakpoint that passes validation while connected but
before any load is queued as pending rather than rejected, still with no
packet sent. -/
theorem breakpoint_validation :
    (∀ st reply bp, bp.offset < 0 →
        ∃ m, setBreakpoint st reply bp = (.error (.validation m), [])) ∧
    (∀ st reply bp segs sid, st.segments = some segs → bp.segmentId = some sid →
        segs.length ≤ sid →
        ∃ m, setBreakpoint st reply bp = (.error (.validation m), [])) ∧
    (∀ st reply bp, st.connected = false →
        (∃ m, setBreakpoint st reply bp = (.error (.validation m), [])) ∧
        (∃ m, removeBreakpoint st reply bp = (.error (.validation m), []))) ∧
    (∀ st reply bp, st.connected = true → st.segments = none →
        validateBreakpoint st bp = none →
        setBreakpoint st reply bp =
          (.ok ({ st with pending := st.pending ++ [bp] }, bp), [])) ∧
    (∃ m, setBreakpoint initialState okReply bpAbs4 = (.error (.validation m), [])) ∧
    (∃ m, removeBreakpoint initialState okReply bpSeg05 = (.error (.validation m), [])) ∧
    (∃ m, setBreakpoint loadedState okReply bpNeg1 = (.error (.validation m), [])) ∧
    (∃ m, setBreakpoint loadedState okReply bpSeg28 = (.error (.validation m), [])) ∧
    setBreakpoint connectedState okReply bpAbs4 =
      (.ok ({ connectedState with pending := [bpAbs4] }, bpAbs4), []) := by
  refine ⟨?_, ?_, ?_, ?_,
    ⟨"socket not connected", by rfl⟩, ⟨"socket not connected", by rfl⟩,
    ⟨"invalid breakpoint offset", by rfl⟩, ⟨"invalid breakpoint segment id", by rfl⟩,
    by rfl⟩
  · intro st reply bp h
    exact ⟨"invalid breakpoint offset", by simp [setBreakpoint, validateBreakpoint, h]⟩
  · intro st reply bp segs sid hsegs hsid hlen
    by_cases ho : bp.offset < 0
    · exact ⟨"invalid breakpoint offset", by simp [setBreakpoint, validateBreakpoint, ho]⟩
    · refine ⟨"invalid breakpoint segment id", ?_⟩
      simp [setBreakpoint, validateBreakpoint, ho, hsegs, hsid, Nat.not_lt.mpr hlen]
  · intro st reply bp hc
    constructor
    · cases hv : validateBreakpoint st bp with
      | some m => exact ⟨m, by simp [setBreakpoint, hv]⟩
      | none => exact ⟨"socket not connected", by simp [setBreakpoint, hv, hc]⟩
    · cases hv : validateBreakpoint st bp with
      | some m => exact ⟨m, by simp [removeBreakpoint, hv]⟩
      | none => exact ⟨"socket not connected", by simp [removeBreakpoint, hv, hc]⟩
  · intro st reply bp hc hs hv
    simp [setBreakpoint, hv, hc, hs]

/-- C4: connect rejects with a negotiation error whenever the capability
reply does not report no-acknowledgement mode support, even though the
transport-level connection succeeded (the reply function models the open
socket); the enable command QStartNoAckMode is then never sent and the
instance is left disconnected.  With full support the same connect
succeeds. -/
theorem connect_requires_noack :
    (∀ reply r, reply supportRequest = .ok r → hasNoAckSupport r = false →
        (∃ m, (connect reply).error = some (.negotiation m)) ∧
        (connect reply).state.connected = false ∧
        "QStartNoAckMode" ∉ (connect reply).sent) ∧
    hasNoAckSupport "multiprocess+;vContSupported+" = false ∧
    (connect noAckMissingReplies).error = some (.negotiation "no ack mode not supported") ∧
    (connect noAckMissingReplies).state.connected = false ∧
    (connect noAckMissingReplies).sent = [supportRequest] ∧
    (connect sampleReplies).error = none ∧
    (connect sampleReplies).state.connected = true := by
  refine ⟨?_, by decide, by rfl, by rfl, by rfl, by rfl, by rfl⟩
  intro reply r hq hn
  refine ⟨⟨"no ack mode not supported", ?_⟩, ?_, ?_⟩
  · simp [connect, hq, hn]
  · simp [connect, hq, hn, initialState]
  · simp only [connect, hq, hn, Bool.false_eq_true, if_false]
    intro hmem
    simp only [List.mem_singleton] at hmem
    exact absurd hmem (by decide)

/-- C2: a successful load leaves the proxy waiting for the first stop
notification with the stopOnEntry choice recorded; that first
notification flushes the pending breakpoints exactly once and issues a
continue for the default CPU thread exactly once when stopOnEntry was
false and never when it was true; later notifications flush nothing and
continue nothing.  Concretely, the test scenario with stopOnEntry false
yields the flush followed by vCont;c:0.f and nothing on a second
notification, and with stopOnEntry true the flush alone. -/
theorem load_halt_resolution :
    (∀ st st' reply prog stopOnEntry sent,
        load st reply prog stopOnEntry = (.ok st', sent) →
        st'.firstStopArmed = true ∧ st'.stopOnEntry = stopOnEntry) ∧
    (∀ st : ProxyState, st.firstStopArmed = true →
        (onStopNotification st).1.firstStopArmed = false ∧
        (st.stopOnEntry = true → (onStopNotification st).2 = [.flushPendingBreakpoints]) ∧
        (∀ t, st.stopOnEntry = false → findCpuThread st.threads = some t →
            (onStopNotification st).2 =
              [.flushPendingBreakpoints, .sendPacket ("vCont;c:" ++ encodeTid t)])) ∧
    (∀ st : ProxyState, st.firstStopArmed = false → onStopNotification st = (st, [])) ∧
    load connectedState sampleReplies "dh0:myprog" false =
      (.ok loadedStateRun, ["Z0,0,0", "vRun;dh0:myprog;", "g", "qfThreadInfo"]) ∧
    (onStopNotification loadedStateRun).2 =
      [.flushPendingBreakpoints, .sendPacket "vCont;c:0.f"] ∧
    (onStopNotification (onStopNotification loadedStateRun).1).2 = [] ∧
    (onStopNotification loadedStateEntry).2 = [.flushPendingBreakpoints] := by
  refine ⟨?_, ?_, ?_, by rfl, by rfl, by rfl, by rfl⟩
  · intro st st' reply prog stopOnEntry sent h
    simp only [load] at h
    cases h1 : reply "Z0,0,0" with
    | error e => simp only [h1] at h; simp at h
    | ok r1 =>
      simp only [h1] at h
      cases h2 : reply (runCommand prog) with
      | error e => simp only [h2] at h; simp at h
      | ok r2 =>
        simp only [h2] at h
        cases h3 : reply "g" with
        | error e => simp only [h3] at h; simp at h
        | ok r3 =>
          simp only [h3] at h
          cases h4 : reply "qfThreadInfo" with
          | error e => simp only [h4] at h; simp at h
          | ok r4 =>
            simp only [h4, Prod.mk.injEq, Except.ok.injEq] at h
            obtain ⟨h5, -⟩ := h
            subst h5
            exact ⟨rfl, rfl⟩
  · intro st h
    refine ⟨by simp [onStopNotification, h], fun hsoe => by simp [onStopNotification, h, hsoe],
      fun t hsoe ht => by simp [onStopNotification, h, hsoe, ht]⟩
  · intro st h
    simp [onStopNotification, h]

/-- C7: when the entry breakpoint installation of a load fails with a
wire error, the load rejects with that same error having sent only the
Z0,0,0 packet, the run command is never sent, and with the first-stop
wait never armed a stop notification flushes no breakpoints and attempts
no resume. -/
theorem load_entry_breakpoint_failure :
    (∀ st reply prog stopOnEntry e, reply "Z0,0,0" = .error e →
        load st reply prog stopOnEntry = (.error e, ["Z0,0,0"]) ∧
        ∀ p ∈ (load st reply prog stopOnEntry).2, p ≠ runCommand prog) ∧
    (∀ st : ProxyState, st.firstStopArmed = false →
        onStopNotification st = (st, [])) ∧
    load connectedState entryBpFailReplies "dh0:myprog" true =
      (.error (GdbError.ofString "E1"), ["Z0,0,0"]) ∧
    connectedState.firstStopArmed = false := by
  refine ⟨?_, ?_, by rfl, by rfl⟩
  · intro st reply prog stopOnEntry e h
    have hl : load st reply prog stopOnEntry = (.error e, ["Z0,0,0"]) := by
      simp [load, h]
    refine ⟨hl, ?_⟩
    rw [hl]
    intro p hp
    simp only [List.mem_singleton] at hp
    subst hp
    intro hEq
    have hd := congrArg (fun s : String => s.data.head?) hEq
    simp only [runCommand, string_data_append] at hd
    simp only [List.cons_append, List.head?] at hd
    exact absurd hd (by decide)
  · intro st h
    simp [onStopNotification, h]

/-- C6: when the halt status query returns a stop reply and one more
halted thread is pending, vStopped is sent repeatedly until the terminal
OK reply — exactly twice for one extra stop — and exactly one halt
status is returned per stop reply, each carrying the parsed signal code
and the raw thread id, which the fixed mapping resolves to the CPU and
Copper roles. -/
theorem getHaltStatus_drains :
    (∀ reply r1 r2 hs1 hs2, reply "?" = .ok r1 →
        parseStopReply r1 = some hs1 → parseStopReply r2 = some hs2 →
        getHaltStatus reply [r2, "OK"] = ([hs1, hs2], 2)) ∧
    getHaltStatus sampleHaltReplies [stopReplyCop, "OK"] =
      ([{ code := 5, thread := some (0, 15) }, { code := 5, thread := some (0, 7) }], 2) ∧
    parseStopReply stopReplyCpu = some { code := 5, thread := some (0, 15) } ∧
    parseStopReply stopReplyCop = some { code := 5, thread := some (0, 7) } ∧
    resolveRole 15 = GdbAmigaSysThreadId.CPU ∧
    resolveRole 7 = GdbAmigaSysThreadId.COP := by
  refine ⟨?_, by rfl, by rfl, by rfl, by rfl, by rfl⟩
  intro reply r1 r2 hs1 hs2 hq hp1 hp2
  have hne : r2 ≠ "OK" := by
    intro he
    rw [he] at hp2
    rw [show parseStopReply "OK" = none from rfl] at hp2
    exact Option.noConfusion hp2
  simp [getHaltStatus, drainStops, hq, hp1, hp2, hne]

end Gdb

